import Mathlib

/-!
Verification development for the gesture-to-pixel coordinate transform engine
of a mobile chat / image-editor application.

The TypeScript sources are shallowly embedded over the rational numbers:
every JavaScript `number` that the editor manipulates is modelled as a `ℚ`
(the idealized real-number semantics of the float code; the specification
itself only promises results "within rounding / floating tolerance"), and
rotation angles are modelled as integer degrees, which is faithful because
the editor only ever produces rotations that are integer multiples of 90
degrees (the rotate action adds 90 modulo 360, and the EXIF lookup returns
0, 90, -90 or 180).  Fallible operations return `Option`.
-/

namespace ChatApp

/-- Screen-space rectangle with rational coordinates (a JS object
`{x, y, width, height}` of floats). -/
structure ScreenCropRect where
  x : ℚ
  y : ℚ
  width : ℚ
  height : ℚ
  deriving DecidableEq, Repr

/-- Integer pixel rectangle in original-image space, the result of the
screen-to-image conversion after `Math.round`. -/
structure ImageCropRect where
  x : ℤ
  y : ℤ
  width : ℤ
  height : ℤ
  deriving DecidableEq, Repr

/-- Parameters describing how the image is currently displayed, from
`src/utils/exifOrientation.ts` (`ImageDisplayParams`). -/
structure ImageDisplayParams where
  imageWidth : ℚ
  imageHeight : ℚ
  displayWidth : ℚ
  displayHeight : ℚ
  scale : ℚ
  translateX : ℚ
  translateY : ℚ
  rotation : ℤ
  deriving DecidableEq, Repr

/-- Result record of `calculateImageDisplayBounds`. -/
structure DisplayBounds where
  displayedWidth : ℚ
  displayedHeight : ℚ
  displayedX : ℚ
  displayedY : ℚ
  deriving DecidableEq, Repr

/-- JavaScript `Math.round`: round half toward positive infinity. -/
def jsRound (q : ℚ) : ℤ := ⌊q + 1 / 2⌋

/-- Exact cosine of an angle given in integer degrees.  The editor only
ever evaluates the trigonometric functions at integer multiples of 90
degrees, where the float code returns (up to float error, which the spec
absorbs into its rounding tolerance) the exact values modelled here; the
value at other angles is irrelevant junk and every theorem below restricts
rotation accordingly. -/
def cosDeg (d : ℤ) : ℚ :=
  if d.emod 360 = 0 then 1 else if d.emod 360 = 180 then -1 else 0

/-- Exact sine of an angle given in integer degrees; see `cosDeg`. -/
def sinDeg (d : ℤ) : ℚ :=
  if d.emod 360 = 90 then 1 else if d.emod 360 = 270 then -1 else 0

/-- Embedding of `calculateImageDisplayBounds`
(`src/utils/exifOrientation.ts`, lines 166-197): scaled size, rotated
bounding box via absolute cosine/sine, then centering plus translation. -/
def calculateImageDisplayBounds (params : ImageDisplayParams) : DisplayBounds :=
  let scaledWidth := params.imageWidth * params.scale
  let scaledHeight := params.imageHeight * params.scale
  let c := |cosDeg params.rotation|
  let s := |sinDeg params.rotation|
  let rotatedWidth := scaledWidth * c + scaledHeight * s
  let rotatedHeight := scaledWidth * s + scaledHeight * c
  let displayedX := (params.displayWidth - rotatedWidth) / 2 + params.translateX
  let displayedY := (params.displayHeight - rotatedHeight) / 2 + params.translateY
  { displayedWidth := rotatedWidth
    displayedHeight := rotatedHeight
    displayedX := displayedX
    displayedY := displayedY }

/-- Embedding of `screenToImageCoordinates`
(`src/utils/exifOrientation.ts`, lines 203-276): translate the crop
rectangle relative to the displayed image, divide by the scale, if the
rotation is nonzero rotate the four corners back about the image center and
take their bounding box, clamp to the image bounds, and round. -/
def screenToImageCoordinates (screenCrop : ScreenCropRect)
    (params : ImageDisplayParams) : ImageCropRect :=
  let displayBounds := calculateImageDisplayBounds params
  let cropRelativeX := screenCrop.x - displayBounds.displayedX
  let cropRelativeY := screenCrop.y - displayBounds.displayedY
  let imageCropX := cropRelativeX / params.scale
  let imageCropY := cropRelativeY / params.scale
  let imageCropWidth := screenCrop.width / params.scale
  let imageCropHeight := screenCrop.height / params.scale
  let (imageCropX, imageCropY, imageCropWidth, imageCropHeight) :=
    if params.rotation ≠ 0 then
      let c := cosDeg (-params.rotation)
      let s := sinDeg (-params.rotation)
      let centerX := params.imageWidth / 2
      let centerY := params.imageHeight / 2
      let rot := fun (p : ℚ × ℚ) =>
        let dx := p.1 - centerX
        let dy := p.2 - centerY
        (centerX + dx * c - dy * s, centerY + dx * s + dy * c)
      let p1 := rot (imageCropX, imageCropY)
      let p2 := rot (imageCropX + imageCropWidth, imageCropY)
      let p3 := rot (imageCropX, imageCropY + imageCropHeight)
      let p4 := rot (imageCropX + imageCropWidth, imageCropY + imageCropHeight)
      let minX := min (min p1.1 p2.1) (min p3.1 p4.1)
      let maxX := max (max p1.1 p2.1) (max p3.1 p4.1)
      let minY := min (min p1.2 p2.2) (min p3.2 p4.2)
      let maxY := max (max p1.2 p2.2) (max p3.2 p4.2)
      (minX, minY, maxX - minX, maxY - minY)
    else
      (imageCropX, imageCropY, imageCropWidth, imageCropHeight)
  let imageCropX := max 0 (min (params.imageWidth - 1) imageCropX)
  let imageCropY := max 0 (min (params.imageHeight - 1) imageCropY)
  let imageCropWidth := max 1 (min (params.imageWidth - imageCropX) imageCropWidth)
  let imageCropHeight := max 1 (min (params.imageHeight - imageCropY) imageCropHeight)
  { x := jsRound imageCropX
    y := jsRound imageCropY
    width := jsRound imageCropWidth
    height := jsRound imageCropHeight }

/-- Embedding of `calculateMinScale`
(`src/utils/exifOrientation.ts`, lines 281-291). -/
def calculateMinScale (imageWidth imageHeight cropWidth cropHeight : ℚ) : ℚ :=
  let scaleX := cropWidth / imageWidth
  let scaleY := cropHeight / imageHeight
  max scaleX scaleY

/-- Embedding of `getRotationForOrientation`
(`src/utils/exifOrientation.ts`, lines 44-65): the EXIF orientation code
to initial-rotation lookup.  Orientation codes are `ExifOrientation`
enum values 1-8. -/
def getRotationForOrientation (orientation : ℤ) : ℤ :=
  if orientation = 1 then 0
  else if orientation = 2 then 0
  else if orientation = 3 then 180
  else if orientation = 4 then 0
  else if orientation = 5 then 90
  else if orientation = 6 then -90
  else if orientation = 7 then 90
  else if orientation = 8 then 90
  else 0

/-- Size pair used by `calculateCropCoordinates` (`{width, height}`). -/
structure Size where
  width : ℚ
  height : ℚ
  deriving DecidableEq, Repr

/-- Transform record used by `calculateCropCoordinates`
(`TransformParams` in the image-processing module). -/
structure TransformParams where
  rotation : ℤ
  scale : ℚ
  translateX : ℚ
  translateY : ℚ
  deriving DecidableEq, Repr

/-- Embedding of `calculateCropCoordinates` from the image-processing
module (unnamed source file, lines 35-103).  It is the second,
independent screen-to-image conversion: unlike
`calculateImageDisplayBounds`, it positions the image using the unrotated
scaled size (no rotated-bounding-box adjustment), then performs the same
rotation/bounding-box/clamp/round steps as `screenToImageCoordinates`. -/
def calculateCropCoordinates (imageSize displaySize : Size)
    (cropArea : ScreenCropRect) (transform : TransformParams) : ImageCropRect :=
  let scaledWidth := imageSize.width * transform.scale
  let scaledHeight := imageSize.height * transform.scale
  let imageDisplayX := (displaySize.width - scaledWidth) / 2 + transform.translateX
  let imageDisplayY := (displaySize.height - scaledHeight) / 2 + transform.translateY
  let cropX := (cropArea.x - imageDisplayX) / transform.scale
  let cropY := (cropArea.y - imageDisplayY) / transform.scale
  let cropWidth := cropArea.width / transform.scale
  let cropHeight := cropArea.height / transform.scale
  let (cropX, cropY, cropWidth, cropHeight) :=
    if transform.rotation ≠ 0 then
      let centerX := imageSize.width / 2
      let centerY := imageSize.height / 2
      let c := cosDeg (-transform.rotation)
      let s := sinDeg (-transform.rotation)
      let rot := fun (p : ℚ × ℚ) =>
        let dx := p.1 - centerX
        let dy := p.2 - centerY
        (centerX + dx * c - dy * s, centerY + dx * s + dy * c)
      let p1 := rot (cropX, cropY)
      let p2 := rot (cropX + cropWidth, cropY)
      let p3 := rot (cropX, cropY + cropHeight)
      let p4 := rot (cropX + cropWidth, cropY + cropHeight)
      let minX := min (min p1.1 p2.1) (min p3.1 p4.1)
      let maxX := max (max p1.1 p2.1) (max p3.1 p4.1)
      let minY := min (min p1.2 p2.2) (min p3.2 p4.2)
      let maxY := max (max p1.2 p2.2) (max p3.2 p4.2)
      (minX, minY, maxX - minX, maxY - minY)
    else
      (cropX, cropY, cropWidth, cropHeight)
  let cropX := max 0 (min (imageSize.width - 1) cropX)
  let cropY := max 0 (min (imageSize.height - 1) cropY)
  let cropWidth := max 1 (min (imageSize.width - cropX) cropWidth)
  let cropHeight := max 1 (min (imageSize.height - cropY) cropHeight)
  { x := jsRound cropX
    y := jsRound cropY
    width := jsRound cropWidth
    height := jsRound cropHeight }

/-- Minimum crop size in screen pixels (`MIN_CROP_SIZE` in
`src/screens/ImageEditorScreen.tsx`). -/
def MIN_CROP_SIZE : ℚ := 100

/-- Live crop rectangle in screen space (the shared values
`cropX, cropY, cropWidth, cropHeight`). -/
structure Rect where
  x : ℚ
  y : ℚ
  width : ℚ
  height : ℚ
  deriving DecidableEq, Repr

/-- The four draggable corner handles (`CropHandle` minus its null case,
which never reaches the update logic). -/
inductive CropHandle where
  | topLeft
  | topRight
  | bottomLeft
  | bottomRight
  deriving DecidableEq, Repr

/-- Aspect-ratio constraint (`CropAspectRatio` union type
`free | 1:1 | 4:5 | 16:9`). -/
inductive CropAspectRatio where
  | free
  | oneOne
  | fourFive
  | sixteenNine
  deriving DecidableEq, Repr

/-- Numeric target aspect, transcribing the conditional chain
`aspectRatio === preset ? value : ... : 1` used at both call sites. -/
def targetAspectOf (a : CropAspectRatio) : ℚ :=
  match a with
  | .oneOne => 1
  | .fourFive => 4 / 5
  | .sixteenNine => 16 / 9
  | .free => 1

/-- Embedding of `clampCropToBounds`
(`src/screens/ImageEditorScreen.tsx`, lines 649-688).  The editor
viewport extends to `SCREEN_WIDTH` horizontally and `EDITOR_HEIGHT`
vertically; those device-dependent module constants are the parameters
`VW` and `VH` here.  The two-pass structure (floor the size, clamp the
overflow, re-floor, shift inward) is kept exactly. -/
def clampCropToBounds (VW VH : ℚ) (x y width height : ℚ) : Rect :=
  let width := max MIN_CROP_SIZE width
  let height := max MIN_CROP_SIZE height
  let (x, width) := if x < 0 then ((0 : ℚ), width + x) else (x, width)
  let (y, height) := if y < 0 then ((0 : ℚ), height + y) else (y, height)
  let width := if x + width > VW then VW - x else width
  let height := if y + height > VH then VH - y else height
  let width := max MIN_CROP_SIZE width
  let height := max MIN_CROP_SIZE height
  let x := if x + width > VW then VW - width else x
  let y := if y + height > VH then VH - height else y
  { x := x, y := y, width := width, height := height }

/-- Embedding of the `onUpdate` body of `createCornerHandleGesture`
(`src/screens/ImageEditorScreen.tsx`, lines 705-813) up to but not
including the final clamp: the corner-specific tentative rectangle, then,
when an aspect ratio is locked, the dominant-axis constraint that
repositions the rectangle against the fixed opposite corner of the
pre-drag base rectangle. -/
def cornerHandleUpdateRect (handle : CropHandle) (aspectRatio : CropAspectRatio)
    (base : Rect) (deltaX deltaY : ℚ) : Rect :=
  let raw : Rect :=
    match handle with
    | .topLeft =>
        ⟨base.x + deltaX, base.y + deltaY, base.width - deltaX,
          base.height - deltaY⟩
    | .topRight =>
        ⟨base.x, base.y + deltaY, base.width + deltaX, base.height - deltaY⟩
    | .bottomLeft =>
        ⟨base.x + deltaX, base.y, base.width - deltaX, base.height + deltaY⟩
    | .bottomRight =>
        ⟨base.x, base.y, base.width + deltaX, base.height + deltaY⟩
  if aspectRatio = .free then raw
  else
    let targetAspect := targetAspectOf aspectRatio
    let absDeltaX := |deltaX|
    let absDeltaY := |deltaY|
    let fixedCornerX :=
      if handle = .topLeft ∨ handle = .bottomLeft then base.x + base.width
      else base.x
    let fixedCornerY :=
      if handle = .topLeft ∨ handle = .topRight then base.y + base.height
      else base.y
    if absDeltaX > absDeltaY then
      let newWidth := raw.width
      let newHeight := newWidth / targetAspect
      let newX :=
        if handle = .topLeft ∨ handle = .bottomLeft then fixedCornerX - newWidth
        else base.x
      let newY :=
        if handle = .topLeft ∨ handle = .topRight then fixedCornerY - newHeight
        else base.y
      ⟨newX, newY, newWidth, newHeight⟩
    else
      let newHeight := raw.height
      let newWidth := newHeight * targetAspect
      let newX :=
        if handle = .topLeft ∨ handle = .bottomLeft then fixedCornerX - newWidth
        else base.x
      let newY :=
        if handle = .topLeft ∨ handle = .topRight then fixedCornerY - newHeight
        else base.y
      ⟨newX, newY, newWidth, newHeight⟩

/-- One full corner-drag `onUpdate`: the tentative aspect-constrained
rectangle followed by `clampCropToBounds`, written back to the live crop
rectangle. -/
def cornerHandleUpdateClamped (VW VH : ℚ) (handle : CropHandle)
    (aspectRatio : CropAspectRatio) (base : Rect) (deltaX deltaY : ℚ) : Rect :=
  let r := cornerHandleUpdateRect handle aspectRatio base deltaX deltaY
  clampCropToBounds VW VH r.x r.y r.width r.height

/-- A whole corner-resize gesture session: `onStart` snapshots the base
rectangle `base`, every `onUpdate` recomputes the live rectangle from that
unchanged base and the cumulative-from-start delta, and `onEnd` commits the
live rectangle.  The session result is the live rectangle after the last
update (the base if there was none). -/
def cornerResizeSession (VW VH : ℚ) (handle : CropHandle)
    (aspectRatio : CropAspectRatio) (base : Rect)
    (deltas : List (ℚ × ℚ)) : Rect :=
  deltas.foldl
    (fun _ d => cornerHandleUpdateClamped VW VH handle aspectRatio base d.1 d.2)
    base

/-- Absolute screen position of the corner diagonally opposite the dragged
handle. -/
def oppositeCorner (handle : CropHandle) (r : Rect) : ℚ × ℚ :=
  match handle with
  | .topLeft => (r.x + r.width, r.y + r.height)
  | .topRight => (r.x, r.y + r.height)
  | .bottomLeft => (r.x + r.width, r.y)
  | .bottomRight => (r.x, r.y)

/-- Embedding of the `onUpdate` body of `pinchGesture`
(`src/screens/ImageEditorScreen.tsx`, lines 620-633): the candidate scale
is the session-start base scale times the gesture ratio, clamped between
the inline minimum scale (crop size at this moment over original image
size) and 3. -/
def pinchUpdateScale (imageWidth imageHeight cropWidth cropHeight
    baseScale gestureScale : ℚ) : ℚ :=
  let newScale := baseScale * gestureScale
  let minScale := max (cropWidth / imageWidth) (cropHeight / imageHeight)
  max minScale (min newScale 3)

/-! ### Helper lemmas -/

/-- Rounding an integer-valued rational is the identity. -/
theorem jsRound_intCast (z : ℤ) : jsRound (z : ℚ) = z := by
  unfold jsRound
  rw [Int.floor_int_add]
  norm_num

/-- Cosine helper: at a rotation congruent to 0 or 180 modulo 360 degrees
the absolute cosine is 1. -/
theorem abs_cosDeg_of_straight {r : ℤ}
    (h : r.emod 360 = 0 ∨ r.emod 360 = 180) : |cosDeg r| = 1 := by
  unfold cosDeg
  rcases h with h | h <;> simp [h]

/-- Sine helper: at a rotation congruent to 0 or 180 modulo 360 degrees the
sine vanishes. -/
theorem sinDeg_of_straight {r : ℤ}
    (h : r.emod 360 = 0 ∨ r.emod 360 = 180) : sinDeg r = 0 := by
  unfold sinDeg
  rcases h with h | h <;> simp [h]

/-! ### C4 — EXIF orientation-to-rotation lookup -/

/-- C4 counterexample: the claim says orientation code 6 maps to 90
degrees, but `getRotationForOrientation` returns -90 for it. -/
theorem getRotationForOrientation_six_ne_ninety :
    ¬ getRotationForOrientation 6 = 90 := by decide

/-- C4 (amended): `getRotationForOrientation` is the fixed lookup
1↦0, 3↦180, 5/7/8↦90, 6↦-90 (a 90-degree-family rotation, but negative),
the flip orientations 2 and 4 map to rotation 0 (flips are represented
separately by `getScaleForOrientation`), and every other code maps to 0. -/
theorem getRotationForOrientation_table (n : ℤ) :
    getRotationForOrientation n =
      if n = 3 then 180
      else if n = 5 ∨ n = 7 ∨ n = 8 then 90
      else if n = 6 then -90
      else 0 := by
  unfold getRotationForOrientation
  split_ifs <;> omega

/-! ### C9 — the two screen-to-image conversions -/

/-- C9 counterexample: at rotation 90 with a non-square image the two
conversions disagree, because `calculateImageDisplayBounds` centers the
rotated bounding box while `calculateCropCoordinates` centers the
unrotated scaled image.  Image 200x100, viewport 400x400, scale 1, no
translation, screen crop (150,100,100,200). -/
theorem cropConversions_disagree_at_rotation_90 :
    calculateCropCoordinates ⟨200, 100⟩ ⟨400, 400⟩ ⟨150, 100, 100, 200⟩
        ⟨90, 1, 0, 0⟩ = ⟨0, 0, 200, 100⟩ ∧
    screenToImageCoordinates ⟨150, 100, 100, 200⟩
        ⟨200, 100, 400, 400, 1, 0, 0, 90⟩ = ⟨50, 50, 150, 50⟩ ∧
    (⟨0, 0, 200, 100⟩ : ImageCropRect) ≠ ⟨50, 50, 150, 50⟩ := by
  refine ⟨?_, ?_, by decide⟩
  · norm_num [calculateCropCoordinates, cosDeg, sinDeg, jsRound, min_def,
      max_def, abs]
  · norm_num [screenToImageCoordinates, calculateImageDisplayBounds, cosDeg,
      sinDeg, jsRound, Int.emod, min_def, max_def, abs]

/-- C9 (amended): the two screen-to-image conversions agree whenever the
rotation is congruent to 0 or 180 modulo 360 degrees (then the rotated
bounding box coincides with the scaled image, so both implementations
position the image identically; for 90-degree rotations of a non-square
image they differ, see the counterexample). -/
theorem calculateCropCoordinates_eq_screenToImageCoordinates
    (imageSize displaySize : Size) (crop : ScreenCropRect)
    (t : TransformParams)
    (h : t.rotation.emod 360 = 0 ∨ t.rotation.emod 360 = 180) :
    calculateCropCoordinates imageSize displaySize crop t =
      screenToImageCoordinates crop
        { imageWidth := imageSize.width
          imageHeight := imageSize.height
          displayWidth := displaySize.width
          displayHeight := displaySize.height
          scale := t.scale
          translateX := t.translateX
          translateY := t.translateY
          rotation := t.rotation } := by
  have hc := abs_cosDeg_of_straight h
  have hs := sinDeg_of_straight h
  simp only [calculateCropCoordinates, screenToImageCoordinates,
    calculateImageDisplayBounds, hc, hs, abs_zero, mul_one, mul_zero,
    add_zero, zero_add]

/-- C9 witness: the two conversions agree at a concrete 180-degree input. -/
theorem calculateCropCoordinates_eq_screenToImageCoordinates_witness :
    calculateCropCoordinates ⟨200, 100⟩ ⟨400, 400⟩ ⟨150, 100, 100, 200⟩
        ⟨180, 1, 20, -10⟩ =
      screenToImageCoordinates ⟨150, 100, 100, 200⟩
        ⟨200, 100, 400, 400, 1, 20, -10, 180⟩ :=
  calculateCropCoordinates_eq_screenToImageCoordinates ⟨200, 100⟩ ⟨400, 400⟩
    ⟨150, 100, 100, 200⟩ ⟨180, 1, 20, -10⟩ (Or.inr (by decide))

/-! ### C1 — full-display round trip at rotation 0 -/

/-- C1: with rotation 0, feeding the screen rectangle that exactly equals
the displayed image bounds (as computed by `calculateImageDisplayBounds`)
into `screenToImageCoordinates` yields the full-image rectangle
`{0, 0, imageWidth, imageHeight}`, for every positive-integer image size,
every viewport size and translation, and every strictly positive scale.
In the exact rational model no rounding slack is even needed. -/
theorem screenToImageCoordinates_full_display_roundtrip
    (p : ImageDisplayParams) (n m : ℕ)
    (hw : p.imageWidth = (n : ℚ)) (hh : p.imageHeight = (m : ℚ))
    (hn : 1 ≤ n) (hm : 1 ≤ m) (hrot : p.rotation = 0) (hs : 0 < p.scale) :
    screenToImageCoordinates
      { x := (calculateImageDisplayBounds p).displayedX
        y := (calculateImageDisplayBounds p).displayedY
        width := (calculateImageDisplayBounds p).displayedWidth
        height := (calculateImageDisplayBounds p).displayedHeight } p =
      ⟨0, 0, (n : ℤ), (m : ℤ)⟩ := by
  have hs0 : p.scale ≠ 0 := ne_of_gt hs
  have hn1 : (1 : ℚ) ≤ (n : ℚ) := by exact_mod_cast hn
  have hm1 : (1 : ℚ) ≤ (m : ℚ) := by exact_mod_cast hm
  have hcos : |cosDeg 0| = 1 := by norm_num [cosDeg]
  have hsin : |sinDeg 0| = 0 := by norm_num [sinDeg]
  simp only [screenToImageCoordinates, calculateImageDisplayBounds,
    hrot, hcos, hsin, hw, hh, mul_one, mul_zero, add_zero, zero_add,
    ne_eq, not_true_eq_false, if_false, ite_false, sub_self, zero_div]
  rw [mul_div_assoc, div_self hs0, mul_one, mul_div_assoc, div_self hs0,
    mul_one]
  have hxn : max 0 (min ((n : ℚ) - 1) 0) = 0 := by
    rw [min_eq_right (by linarith), max_self]
  have hxm : max 0 (min ((m : ℚ) - 1) 0) = 0 := by
    rw [min_eq_right (by linarith), max_self]
  rw [hxn, hxm, sub_zero, sub_zero, min_self, min_self,
    max_eq_right (by linarith), max_eq_right (by linarith)]
  have h0 : jsRound 0 = 0 := by
    rw [show (0 : ℚ) = ((0 : ℤ) : ℚ) by norm_num, jsRound_intCast]
  have hjn : jsRound (n : ℚ) = (n : ℤ) := by
    rw [show ((n : ℚ)) = (((n : ℤ) : ℚ)) by push_cast; ring, jsRound_intCast]
  have hjm : jsRound (m : ℚ) = (m : ℤ) := by
    rw [show ((m : ℚ)) = (((m : ℤ) : ℚ)) by push_cast; ring, jsRound_intCast]
  rw [h0, hjn, hjm]

/-- C1 witness: a 100x100 image in a 400x400 viewport at scale 1/2 with
translation (5, -7). -/
theorem screenToImageCoordinates_full_display_roundtrip_witness :
    screenToImageCoordinates
      { x := (calculateImageDisplayBounds
          ⟨100, 100, 400, 400, 1/2, 5, -7, 0⟩).displayedX
        y := (calculateImageDisplayBounds
          ⟨100, 100, 400, 400, 1/2, 5, -7, 0⟩).displayedY
        width := (calculateImageDisplayBounds
          ⟨100, 100, 400, 400, 1/2, 5, -7, 0⟩).displayedWidth
        height := (calculateImageDisplayBounds
          ⟨100, 100, 400, 400, 1/2, 5, -7, 0⟩).displayedHeight }
      ⟨100, 100, 400, 400, 1/2, 5, -7, 0⟩ = ⟨0, 0, 100, 100⟩ :=
  screenToImageCoordinates_full_display_roundtrip
    ⟨100, 100, 400, 400, 1/2, 5, -7, 0⟩ 100 100 (by norm_num) (by norm_num)
    (by norm_num) (by norm_num) rfl (by norm_num)

/-! ### C2 — aspect-ratio tie-break rule -/

/-- C2 counterexample: on an exact tie `|deltaX| = |deltaY|` the claim
predicts the width-primary branch, whose new width would be the
drag-derived width `baseWidth + deltaX = 330`; the code's strict
comparison `absDeltaX > absDeltaY` is false on a tie, so the
height-primary branch runs and the width becomes
`newHeight * targetAspect = 190 * 16/9 = 3040/9 ≠ 330`. -/
theorem cornerTieBreak_not_width_primary :
    ¬ (cornerHandleUpdateRect .bottomRight .sixteenNine ⟨0, 0, 320, 180⟩
        10 10).width = 330 := by
  norm_num +decide [cornerHandleUpdateRect, targetAspectOf]

/-- C2 (amended): on an exact tie `|deltaX| = |deltaY|` a locked-ratio
corner update uses the height-primary (vertical-dominant) branch: the new
height is the drag-derived height, the new width is
`newHeight * targetAspect`, and the rectangle is repositioned against the
fixed opposite corner. -/
theorem cornerTieBreak_height_primary (handle : CropHandle)
    (a : CropAspectRatio) (base : Rect) (dx dy : ℚ)
    (hfree : a ≠ .free) (htie : |dx| = |dy|) :
    cornerHandleUpdateRect handle a base dx dy =
      (let raw := cornerHandleUpdateRect handle .free base dx dy
       let newHeight := raw.height
       let newWidth := newHeight * targetAspectOf a
       let newX :=
         if handle = .topLeft ∨ handle = .bottomLeft then
           base.x + base.width - newWidth
         else base.x
       let newY :=
         if handle = .topLeft ∨ handle = .topRight then
           base.y + base.height - newHeight
         else base.y
       ⟨newX, newY, newWidth, newHeight⟩) := by
  have hnot : ¬ |dx| > |dy| := by rw [htie]; exact lt_irrefl _
  simp only [cornerHandleUpdateRect, if_neg hfree, hnot, if_false, ite_false,
    reduceIte]
  split_ifs <;> rfl

/-- C2 witness: bottom-right handle, 16:9 lock, tie delta (10, 10). -/
theorem cornerTieBreak_height_primary_witness :
    cornerHandleUpdateRect .bottomRight .sixteenNine ⟨0, 0, 320, 180⟩ 10 10 =
      (let raw := cornerHandleUpdateRect .bottomRight .free ⟨0, 0, 320, 180⟩
        10 10
       let newHeight := raw.height
       let newWidth := newHeight * targetAspectOf .sixteenNine
       let newX :=
         if CropHandle.bottomRight = .topLeft ∨
             CropHandle.bottomRight = .bottomLeft then
           (0 : ℚ) + 320 - newWidth
         else (0 : ℚ)
       let newY :=
         if CropHandle.bottomRight = .topLeft ∨
             CropHandle.bottomRight = .topRight then
           (0 : ℚ) + 180 - newHeight
         else (0 : ℚ)
       ⟨newX, newY, newWidth, newHeight⟩) :=
  cornerTieBreak_height_primary .bottomRight .sixteenNine ⟨0, 0, 320, 180⟩
    10 10 (by decide) (by norm_num)

/-! ### C6 — pinch scale bounds -/

/-- C6 counterexample: with a 50x50 image and a 300x300 crop rectangle the
momentary minimum scale is 6, and a pinch update at base scale 1 and
gesture ratio 1 clamps the scale to 6, violating the claimed upper bound
`scale ≤ 3.0`. -/
theorem pinchUpdateScale_can_exceed_three :
    pinchUpdateScale 50 50 300 300 1 1 = 6 ∧ ¬ ((6 : ℚ) ≤ 3) := by
  constructor
  · norm_num [pinchUpdateScale, max_def, min_def]
  · norm_num

/-- C6 (amended): immediately after every pinch update the scale is at
least the minimum scale computed from the crop rectangle at that moment
and the original image dimensions, and at most `max 3 minScale`; the
claimed ceiling of 3.0 therefore holds exactly when `minScale ≤ 3`, and
when the momentary minimum scale exceeds 3 the clamp yields `minScale`
itself. -/
theorem pinchUpdateScale_bounds (imageWidth imageHeight cropWidth cropHeight
    baseScale gestureScale : ℚ) :
    calculateMinScale imageWidth imageHeight cropWidth cropHeight ≤
        pinchUpdateScale imageWidth imageHeight cropWidth cropHeight
          baseScale gestureScale ∧
      pinchUpdateScale imageWidth imageHeight cropWidth cropHeight
          baseScale gestureScale ≤
        max 3 (calculateMinScale imageWidth imageHeight cropWidth cropHeight) := by
  simp only [pinchUpdateScale, calculateMinScale]
  constructor
  · exact le_max_left _ _
  · exact max_le (le_max_right _ _)
      (le_trans (min_le_right _ _) (le_max_left _ _))

/-! ### C7 — clamp idempotence -/

/-- Axis-wise restatement of `clampCropToBounds`: the x/width and y/height
computations never interact, so the clamp is this one-dimensional
function applied to each axis with its own viewport extent. -/
def clampAxis (V p s : ℚ) : ℚ × ℚ :=
  let s := max MIN_CROP_SIZE s
  let (p, s) := if p < 0 then ((0 : ℚ), s + p) else (p, s)
  let s := if p + s > V then V - p else s
  let s := max MIN_CROP_SIZE s
  let p := if p + s > V then V - s else p
  (p, s)

/-- Decomposition of the clamp into its two independent axes. -/
theorem clampCropToBounds_eq_axis (VW VH x y w h : ℚ) :
    clampCropToBounds VW VH x y w h =
      ⟨(clampAxis VW x w).1, (clampAxis VH y h).1,
        (clampAxis VW x w).2, (clampAxis VH y h).2⟩ := by
  simp only [clampCropToBounds, clampAxis]

/-- Every output of `clampAxis` satisfies the post-state invariant: the
size is at least the floor, and either the segment lies inside `[0, V]`
or (only possible when the viewport is smaller than the floor) the output
is exactly the floor-sized segment pushed against the far edge. -/
theorem clampAxis_invariant (V p s : ℚ) :
    MIN_CROP_SIZE ≤ (clampAxis V p s).2 ∧
      ((0 ≤ (clampAxis V p s).1 ∧
          (clampAxis V p s).1 + (clampAxis V p s).2 ≤ V) ∨
        ((clampAxis V p s).2 = MIN_CROP_SIZE ∧
          (clampAxis V p s).1 = V - MIN_CROP_SIZE)) := by
  simp only [clampAxis, max_def]
  split_ifs <;> dsimp only at * <;>
    refine ⟨by linarith, ?_⟩ <;>
    first
      | exact Or.inl ⟨by linarith, by linarith⟩
      | exact Or.inr ⟨by linarith, by linarith⟩

/-- States satisfying the post-state invariant are fixed points of
`clampAxis`. -/
theorem clampAxis_eq_self (V p s : ℚ) (hs : MIN_CROP_SIZE ≤ s)
    (h : (0 ≤ p ∧ p + s ≤ V) ∨ (s = MIN_CROP_SIZE ∧ p = V - MIN_CROP_SIZE)) :
    clampAxis V p s = (p, s) := by
  rcases h with ⟨hp, hps⟩ | ⟨hs', hp⟩ <;>
    · simp only [clampAxis, max_def, Prod.mk.injEq]
      split_ifs <;> dsimp only at * <;> constructor <;> linarith

/-- C7: `clampCropToBounds` is idempotent for every input rectangle,
including out-of-bounds and undersized ones, and for every viewport size
(in particular the device constants `SCREEN_WIDTH`/`EDITOR_HEIGHT`). -/
theorem clampCropToBounds_idempotent (VW VH x y w h : ℚ) :
    clampCropToBounds VW VH (clampCropToBounds VW VH x y w h).x
        (clampCropToBounds VW VH x y w h).y
        (clampCropToBounds VW VH x y w h).width
        (clampCropToBounds VW VH x y w h).height =
      clampCropToBounds VW VH x y w h := by
  obtain ⟨hw1, hw2⟩ := clampAxis_invariant VW x w
  obtain ⟨hh1, hh2⟩ := clampAxis_invariant VH y h
  have ex : clampAxis VW (clampAxis VW x w).1 (clampAxis VW x w).2 =
      ((clampAxis VW x w).1, (clampAxis VW x w).2) :=
    clampAxis_eq_self VW _ _ hw1 hw2
  have ey : clampAxis VH (clampAxis VH y h).1 (clampAxis VH y h).2 =
      ((clampAxis VH y h).1, (clampAxis VH y h).2) :=
    clampAxis_eq_self VH _ _ hh1 hh2
  rw [clampCropToBounds_eq_axis VW VH x y w h, clampCropToBounds_eq_axis]
  dsimp only
  rw [ex, ey]

/-! ### C5 — fixed opposite corner under locked-ratio resize -/

/-- Pre-clamp preservation: with a locked ratio, a single corner update
places the rectangle so the opposite corner of the pre-drag base keeps
its exact position. -/
theorem cornerHandleUpdateRect_fixes_opposite (handle : CropHandle)
    (a : CropAspectRatio) (base : Rect) (dx dy : ℚ) (hfree : a ≠ .free) :
    oppositeCorner handle (cornerHandleUpdateRect handle a base dx dy) =
      oppositeCorner handle base := by
  cases handle <;>
    · simp only [cornerHandleUpdateRect, oppositeCorner, if_neg hfree]
      split_ifs <;> simp_all

/-- C5 counterexample: one update of a top-left drag with a locked 1:1
ratio, delta (150, 0), base rectangle (100,100,200,200) in a 400x600
viewport: the aspect-constrained rectangle (250,250,50,50) violates the
minimum crop size, the clamp re-floors it to (250,250,100,100), and the
opposite (bottom-right) corner jumps from (300,300) to (350,350) — far
beyond the 0.5 px tolerance. -/
theorem cornerResize_opposite_corner_moves :
    oppositeCorner .topLeft
        (cornerResizeSession 400 600 .topLeft .oneOne
          ⟨100, 100, 200, 200⟩ [(150, 0)]) = (350, 350) ∧
      oppositeCorner .topLeft (⟨100, 100, 200, 200⟩ : Rect) = (300, 300) ∧
      ¬ |(350 : ℚ) - 300| ≤ 1 / 2 := by
  refine ⟨?_, by norm_num [oppositeCorner], by norm_num⟩
  norm_num +decide [cornerResizeSession, cornerHandleUpdateClamped,
    cornerHandleUpdateRect, clampCropToBounds, oppositeCorner,
    targetAspectOf, MIN_CROP_SIZE, max_def, min_def, abs]

/-- C5 (amended): after a locked-ratio corner-resize session in which no
update needs clamping (each aspect-constrained rectangle already lies in
the viewport with both sides at least the minimum size), the opposite
corner keeps its exact pre-drag position — in particular it stays within
any 0.5 px tolerance.  The counterexample shows the unrestricted claim
fails as soon as the clamp has to intervene. -/
theorem cornerResizeSession_fixes_opposite (VW VH : ℚ) (handle : CropHandle)
    (a : CropAspectRatio) (base : Rect) (deltas : List (ℚ × ℚ))
    (hfree : a ≠ .free)
    (hnoclamp : ∀ d ∈ deltas,
      cornerHandleUpdateClamped VW VH handle a base d.1 d.2 =
        cornerHandleUpdateRect handle a base d.1 d.2) :
    oppositeCorner handle (cornerResizeSession VW VH handle a base deltas) =
      oppositeCorner handle base := by
  have aux : ∀ (l : List (ℚ × ℚ)) (init : Rect),
      (∀ d ∈ l, cornerHandleUpdateClamped VW VH handle a base d.1 d.2 =
        cornerHandleUpdateRect handle a base d.1 d.2) →
      oppositeCorner handle init = oppositeCorner handle base →
      oppositeCorner handle
          (l.foldl
            (fun _ d => cornerHandleUpdateClamped VW VH handle a base d.1 d.2)
            init) =
        oppositeCorner handle base := by
    intro l
    induction l with
    | nil => intro init _ h0; simpa using h0
    | cons d t ih =>
        intro init hcl h0
        simp only [List.foldl_cons]
        refine ih _ (fun e he => hcl e (List.mem_cons_of_mem _ he)) ?_
        rw [hcl d (List.mem_cons_self _ _)]
        exact cornerHandleUpdateRect_fixes_opposite handle a base d.1 d.2 hfree
  exact aux deltas base hnoclamp rfl

/-- C5 witness: bottom-right drag, 1:1 lock, one update with delta
(-20, 5) on base (100,100,200,200) in a 400x600 viewport; the constrained
rectangle (100,100,180,180) needs no clamping and the top-left corner
stays at (100,100). -/
theorem cornerResizeSession_fixes_opposite_witness :
    oppositeCorner .bottomRight
        (cornerResizeSession 400 600 .bottomRight .oneOne
          ⟨100, 100, 200, 200⟩ [(-20, 5)]) =
      oppositeCorner .bottomRight (⟨100, 100, 200, 200⟩ : Rect) :=
  cornerResizeSession_fixes_opposite 400 600 .bottomRight .oneOne
    ⟨100, 100, 200, 200⟩ [(-20, 5)] (by decide)
    (by
      intro d hd
      simp only [List.mem_singleton] at hd
      subst hd
      norm_num +decide [cornerHandleUpdateClamped, cornerHandleUpdateRect,
        clampCropToBounds, targetAspectOf, MIN_CROP_SIZE, max_def, min_def,
        abs])

/-! ### Editor snapshots, undo/redo, and state restoration -/

/-- A point of a freehand drawing path (`{x, y}` in `DrawingPath.points`,
`src/types/index.ts`). -/
structure DrawingPoint where
  x : ℚ
  y : ℚ
  deriving DecidableEq, Repr

/-- Freehand drawing path (`DrawingPath` in `src/types/index.ts`). -/
structure DrawingPath where
  id : String
  points : List DrawingPoint
  color : String
  strokeWidth : ℚ
  deriving DecidableEq, Repr

/-- Text sticker record (`TextSticker` in `src/types/index.ts`). -/
structure TextSticker where
  id : String
  text : String
  x : ℚ
  y : ℚ
  fontSize : ℚ
  color : String
  fontFamily : Option String
  rotation : Option ℚ
  scale : Option ℚ
  deriving DecidableEq, Repr

/-- Undo/redo snapshot (`EditorState` in `src/utils/undoRedo.ts` and
`src/types/index.ts`).  Note which fields it does NOT record: the crop
rectangle position (`cropX`, `cropY`), the aspect-ratio setting, and the
editor mode. -/
structure EditorState where
  rotation : ℚ
  scale : ℚ
  translateX : ℚ
  translateY : ℚ
  cropWidth : ℚ
  cropHeight : ℚ
  brightness : ℚ
  contrast : ℚ
  saturation : ℚ
  drawings : List DrawingPath
  textStickers : List TextSticker
  deriving DecidableEq, Repr

/-- Embedding of `UndoRedoStack.cloneState`: a field-by-field rebuild, with
each drawing path rebuilt around a copied point list (`[...d.points]`) and
each sticker rebuilt by spread (`{...s}`).  In the value semantics of the
embedding these copies are value-equal to the originals. -/
def cloneState (state : EditorState) : EditorState :=
  { rotation := state.rotation
    scale := state.scale
    translateX := state.translateX
    translateY := state.translateY
    cropWidth := state.cropWidth
    cropHeight := state.cropHeight
    brightness := state.brightness
    contrast := state.contrast
    saturation := state.saturation
    drawings := state.drawings.map (fun d =>
      { id := d.id
        points := d.points.map (fun p => p)
        color := d.color
        strokeWidth := d.strokeWidth })
    textStickers := state.textStickers.map (fun s =>
      { id := s.id
        text := s.text
        x := s.x
        y := s.y
        fontSize := s.fontSize
        color := s.color
        fontFamily := s.fontFamily
        rotation := s.rotation
        scale := s.scale }) }

/-- The two-stack undo/redo machine (`UndoRedoStack` in
`src/utils/undoRedo.ts`); the last list element is the top of the stack
(`push`/`pop` operate on the end, `shift` evicts the front). -/
structure UndoRedoStack where
  undoStack : List EditorState
  redoStack : List EditorState
  maxStackSize : ℕ
  deriving DecidableEq, Repr

/-- Embedding of `UndoRedoStack.saveState`: push a deep clone, evict the
oldest entry when the depth bound is exceeded, clear the redo stack. -/
def saveState (stack : UndoRedoStack) (state : EditorState) : UndoRedoStack :=
  let clonedState := cloneState state
  let undoStack := stack.undoStack ++ [clonedState]
  let undoStack :=
    if undoStack.length > stack.maxStackSize then undoStack.drop 1
    else undoStack
  { stack with undoStack := undoStack, redoStack := [] }

/-- Embedding of `UndoRedoStack.undo`: `none` when there is nothing to
undo, otherwise push a clone of the current state onto redo and pop the
undo stack, returning the restored snapshot and the new stacks. -/
def undo (stack : UndoRedoStack) (currentState : EditorState) :
    Option EditorState × UndoRedoStack :=
  if stack.undoStack.length = 0 then (none, stack)
  else
    let redoStack := stack.redoStack ++ [cloneState currentState]
    let previousState := stack.undoStack.getLast?
    (previousState,
      { stack with undoStack := stack.undoStack.dropLast, redoStack := redoStack })

/-- Embedding of `UndoRedoStack.redo`, symmetric to `undo`. -/
def redo (stack : UndoRedoStack) (currentState : EditorState) :
    Option EditorState × UndoRedoStack :=
  if stack.redoStack.length = 0 then (none, stack)
  else
    let undoStack := stack.undoStack ++ [cloneState currentState]
    let nextState := stack.redoStack.getLast?
    (nextState,
      { stack with undoStack := undoStack, redoStack := stack.redoStack.dropLast })

/-- Editor display mode (`EditorMode` union in
`src/screens/ImageEditorScreen.tsx`). -/
inductive EditorMode where
  | crop
  | adjust
  | draw
  | text
  deriving DecidableEq, Repr

/-- The live React/Reanimated editor state that `applyEditorState`
mutates a part of: React state (`rotation`, sliders, annotation lists,
`aspectRatio`, `mode`) and shared values (`scale`, translation,
`rotationValue`, crop rectangle). -/
structure FullEditorUiState where
  rotation : ℚ
  brightness : ℚ
  contrast : ℚ
  saturation : ℚ
  drawings : List DrawingPath
  textStickers : List TextSticker
  scale : ℚ
  translateX : ℚ
  translateY : ℚ
  rotationValue : ℚ
  cropX : ℚ
  cropY : ℚ
  cropWidth : ℚ
  cropHeight : ℚ
  aspectRatio : CropAspectRatio
  mode : EditorMode
  deriving DecidableEq, Repr

/-- Embedding of `applyEditorState`
(`src/screens/ImageEditorScreen.tsx`, lines 347-360): writes back every
field recorded in a snapshot (`rotationValue` receives the snapshot
rotation), leaving all other live state untouched. -/
def applyEditorState (ui : FullEditorUiState) (state : EditorState) :
    FullEditorUiState :=
  { ui with
    rotation := state.rotation
    brightness := state.brightness
    contrast := state.contrast
    saturation := state.saturation
    drawings := state.drawings
    textStickers := state.textStickers
    scale := state.scale
    translateX := state.translateX
    translateY := state.translateY
    rotationValue := state.rotation
    cropWidth := state.cropWidth
    cropHeight := state.cropHeight }

/-! ### Commit (`handleSave`) decision logic -/

/-- The `editMetadata` record a successful commit attaches to the saved
media (`MediaFile.editMetadata`, geometric fields). -/
structure EditMetadata where
  rotation : ℤ
  scale : ℚ
  translateX : ℚ
  translateY : ℚ
  cropX : ℚ
  cropY : ℚ
  cropWidth : ℚ
  cropHeight : ℚ
  deriving DecidableEq, Repr

/-- The editor state `handleSave` reads at commit time. -/
structure SaveContext where
  hasImageUri : Bool
  hasOriginalImageUri : Bool
  imageWidth : ℚ
  imageHeight : ℚ
  rotation : ℤ
  scale : ℚ
  translateX : ℚ
  translateY : ℚ
  cropX : ℚ
  cropY : ℚ
  cropWidth : ℚ
  cropHeight : ℚ
  deriving DecidableEq, Repr

/-- Outcome of one `handleSave` invocation: the silent early return, or a
committed save carrying the edit metadata. -/
inductive SaveOutcome where
  | noSave
  | commit (metadata : EditMetadata)
  deriving DecidableEq, Repr

/-- Embedding of the decision logic of `handleSave`
(`src/screens/ImageEditorScreen.tsx`, lines 473-580).  The guard is the
source's only precondition check: missing URIs or zero image dimensions
return early.  Otherwise the commit proceeds: the rotation is normalized
to [0, 360) and the current transform and screen-space crop rectangle are
recorded unchanged in the metadata.  The ViewShot capture and file moves
are external IO, modelled as succeeding; the generic
"Failed to save edited image" alert sits in the catch branch and is
reachable only from an external IO exception.  No branch of `handleSave`
inspects `scale`, and `handleSave` never invokes
`screenToImageCoordinates` (or any other division by `scale`): the export
captures the on-screen view directly. -/
def handleSave (ctx : SaveContext) : SaveOutcome :=
  if ¬ctx.hasImageUri ∨ ¬ctx.hasOriginalImageUri ∨ ctx.imageWidth = 0 ∨
      ctx.imageHeight = 0 then
    .noSave
  else
    let normalizedRotation := ((ctx.rotation % 360) + 360) % 360
    .commit
      { rotation := normalizedRotation
        scale := ctx.scale
        translateX := ctx.translateX
        translateY := ctx.translateY
        cropX := ctx.cropX
        cropY := ctx.cropY
        cropWidth := ctx.cropWidth
        cropHeight := ctx.cropHeight }

/-- Deep cloning a snapshot yields a value-equal snapshot. -/
theorem cloneState_eq (s : EditorState) : cloneState s = s := by
  cases s
  simp [cloneState]

/-- After `saveState`, the top of the undo stack is the saved snapshot
(the depth-bound eviction removes the oldest entry, never the new top),
provided the depth bound is at least 1. -/
theorem saveState_getLast (stack : UndoRedoStack) (s0 : EditorState)
    (hmax : 1 ≤ stack.maxStackSize) :
    (saveState stack s0).undoStack.getLast? = some s0 := by
  simp only [saveState]
  split_ifs with h
  · have hlen : 1 ≤ stack.undoStack.length := by
      simp only [List.length_append, List.length_singleton] at h
      omega
    rw [List.drop_append_of_le_length hlen, List.getLast?_concat,
      cloneState_eq]
  · rw [List.getLast?_concat, cloneState_eq]

/-! ### C8 — undo/redo stack laws -/

/-- C8: for every prior stack contents (with the depth bound at least 1,
as in the default configuration of 50): after `saveState s0`, an `undo`
with current state `s1` returns a snapshot value-equal to `s0`, and a
subsequent `redo` with current state `s0` returns a snapshot value-equal
to `s1`. -/
theorem undoRedoStack_laws (stack : UndoRedoStack) (s0 s1 : EditorState)
    (hmax : 1 ≤ stack.maxStackSize) :
    (undo (saveState stack s0) s1).1 = some s0 ∧
      (redo (undo (saveState stack s0) s1).2 s0).1 = some s1 := by
  have hlast := saveState_getLast stack s0 hmax
  have hne : ¬(saveState stack s0).undoStack.length = 0 := by
    intro h0
    rw [List.length_eq_zero.mp h0] at hlast
    simp at hlast
  have hredo : (saveState stack s0).redoStack = [] := by
    simp [saveState]
  constructor
  · simp only [undo, if_neg hne]
    exact hlast
  · simp only [undo, if_neg hne, redo, hredo, List.nil_append,
      List.length_singleton]
    norm_num [List.getLast?_concat, cloneState_eq]

/-- C8 witness: empty stack with the default bound 50, two concrete
distinct snapshots. -/
theorem undoRedoStack_laws_witness :
    (undo (saveState ⟨[], [], 50⟩
        ⟨0, 1, 0, 0, 300, 300, 0, 0, 0, [], []⟩)
      ⟨90, 2, 5, -5, 200, 200, 10, 0, 0, [], []⟩).1 =
      some ⟨0, 1, 0, 0, 300, 300, 0, 0, 0, [], []⟩ ∧
    (redo (undo (saveState ⟨[], [], 50⟩
          ⟨0, 1, 0, 0, 300, 300, 0, 0, 0, [], []⟩)
        ⟨90, 2, 5, -5, 200, 200, 10, 0, 0, [], []⟩).2
      ⟨0, 1, 0, 0, 300, 300, 0, 0, 0, [], []⟩).1 =
      some ⟨90, 2, 5, -5, 200, 200, 10, 0, 0, [], []⟩ :=
  undoRedoStack_laws ⟨[], [], 50⟩
    ⟨0, 1, 0, 0, 300, 300, 0, 0, 0, [], []⟩
    ⟨90, 2, 5, -5, 200, 200, 10, 0, 0, [], []⟩ (by norm_num)

/-! ### C10 — frame of applyEditorState -/

/-- C10: restoring a snapshot via `applyEditorState` overwrites exactly
the snapshot-recorded fields (rotation, both into the React state and the
animated `rotationValue`, scale, translation, crop size, the three
adjustment sliders, drawings, text stickers) and leaves the crop
rectangle position (`cropX`, `cropY`), the aspect-ratio setting and the
editor mode at their pre-undo values — the snapshot type simply does not
record those. -/
theorem applyEditorState_frame (ui : FullEditorUiState) (state : EditorState) :
    (applyEditorState ui state).cropX = ui.cropX ∧
    (applyEditorState ui state).cropY = ui.cropY ∧
    (applyEditorState ui state).aspectRatio = ui.aspectRatio ∧
    (applyEditorState ui state).mode = ui.mode ∧
    (applyEditorState ui state).rotation = state.rotation ∧
    (applyEditorState ui state).rotationValue = state.rotation ∧
    (applyEditorState ui state).scale = state.scale ∧
    (applyEditorState ui state).translateX = state.translateX ∧
    (applyEditorState ui state).translateY = state.translateY ∧
    (applyEditorState ui state).cropWidth = state.cropWidth ∧
    (applyEditorState ui state).cropHeight = state.cropHeight ∧
    (applyEditorState ui state).brightness = state.brightness ∧
    (applyEditorState ui state).contrast = state.contrast ∧
    (applyEditorState ui state).saturation = state.saturation ∧
    (applyEditorState ui state).drawings = state.drawings ∧
    (applyEditorState ui state).textStickers = state.textStickers :=
  ⟨rfl, rfl, rfl, rfl, rfl, rfl, rfl, rfl, rfl, rfl, rfl, rfl, rfl, rfl,
    rfl, rfl⟩

/-! ### C3 — commit-time scale policy -/

/-- C3 counterexample: with both URIs present and nonzero image
dimensions but `scale = 0`, `handleSave` does NOT reject the commit — the
guard never inspects the scale and the save proceeds, recording the zero
scale unchanged in the metadata. -/
theorem handleSave_commits_at_zero_scale :
    handleSave
        { hasImageUri := true, hasOriginalImageUri := true,
          imageWidth := 100, imageHeight := 100, rotation := 0, scale := 0,
          translateX := 0, translateY := 0, cropX := 10, cropY := 20,
          cropWidth := 200, cropHeight := 200 } =
      .commit ⟨0, 0, 0, 0, 10, 20, 200, 200⟩ := by
  norm_num [handleSave]

/-- C3 (amended): `handleSave` checks only that both image URIs are
present and both image dimensions are nonzero; it performs no scale
check, so even with `scale ≤ 0` the commit proceeds and records the
scale unchanged.  The screen-to-image divisions by `scale` are indeed
never evaluated during a commit — but vacuously so, because the commit
path never invokes the screen-to-image conversion at all (the export
captures the displayed view). -/
theorem handleSave_has_no_scale_guard (ctx : SaveContext)
    (h1 : ctx.hasImageUri = true) (h2 : ctx.hasOriginalImageUri = true)
    (h3 : ctx.imageWidth ≠ 0) (h4 : ctx.imageHeight ≠ 0)
    (h5 : ctx.scale ≤ 0) :
    handleSave ctx =
      .commit
        { rotation := ((ctx.rotation % 360) + 360) % 360
          scale := ctx.scale
          translateX := ctx.translateX
          translateY := ctx.translateY
          cropX := ctx.cropX
          cropY := ctx.cropY
          cropWidth := ctx.cropWidth
          cropHeight := ctx.cropHeight } := by
  simp [handleSave, h1, h2, h3, h4]

/-- C3 witness: a commit at scale -1 with valid preconditions. -/
theorem handleSave_has_no_scale_guard_witness :
    handleSave
        { hasImageUri := true, hasOriginalImageUri := true,
          imageWidth := 50, imageHeight := 80, rotation := 450, scale := -1,
          translateX := 3, translateY := 4, cropX := 10, cropY := 20,
          cropWidth := 150, cropHeight := 150 } =
      .commit ⟨90, -1, 3, 4, 10, 20, 150, 150⟩ :=
  handleSave_has_no_scale_guard
    { hasImageUri := true, hasOriginalImageUri := true,
      imageWidth := 50, imageHeight := 80, rotation := 450, scale := -1,
      translateX := 3, translateY := 4, cropX := 10, cropY := 20,
      cropWidth := 150, cropHeight := 150 }
    rfl rfl (by norm_num) (by norm_num) (by norm_num)

end ChatApp
